import Mathlib

/-!
Shallow embedding of `src/app.py` (a Flask webhook relay that fetches a PR
diff from GitHub, sends it to an LLM for review, and posts the result back).

Modelling conventions:
* Python values appearing in the webhook JSON are modelled by the inductive
  type `J` (null / bool / int / string / object).  JSON arrays and floats are
  not exercised by any code path the claims touch, so they are omitted.
* Python exceptions are modelled by `PyExc`, keeping the class distinction
  that `handle_pr` dispatches on (`ValueError` vs everything else) together
  with the message each raise site builds.  `str(KeyError(k))` renders as the
  key surrounded by single quotes, as in CPython.
* Each outbound HTTP interaction is a parameter of the function that performs
  it (`FetchOutcome`, `LLMOutcome`, `PostOutcome` describe what the network
  returned), and every function also returns the list of requests (`Req`) it
  issued, so theorems can speak about which pipeline stages ran and with what
  arguments/headers.
* `requests.Response.raise_for_status` raises `HTTPError` exactly for status
  codes in [400, 600); this is modelled by the `400 ≤ s ∧ s < 600` tests.
* `str.strip()` is modelled by `pyStrip` over the ASCII whitespace characters
  (space, tab, newline, carriage return, vertical tab, form feed); no claim
  involves non-ASCII whitespace.
-/

/-- JSON-like Python values occurring in the webhook event. -/
inductive J where
  | null
  | bool (b : Bool)
  | num (n : Int)
  | str (s : String)
  | obj (fields : List (String × J))
deriving Repr

/-- Python exception values raised by the code in `app.py`.  The constructor
records the Python class (which `handle_pr`'s `except` clauses dispatch on)
and the message the raise site built. -/
inductive PyExc where
  | valueError (msg : String)
  | runtimeError (msg : String)
  | keyError (key : String)
  | typeError (msg : String)
  | exception (msg : String)
deriving DecidableEq, Repr

/-- `str(e)` for a Python exception: the message, except that `KeyError`
renders as the quoted key. -/
def pyExcStr : PyExc → String
  | .valueError m => m
  | .runtimeError m => m
  | .keyError k => "\x27" ++ k ++ "\x27"
  | .typeError m => m
  | .exception m => m

/-- Python truthiness for the configuration strings read via `os.getenv`
(`None` when unset, and the empty string is also falsy). -/
def pyTruthyOptStr : Option String → Bool
  | none => false
  | some s => !(s == "")

/-- Python truthiness of a `J` value (`if not pr or not repo`). -/
def pyTruthyJ : J → Bool
  | .null => false
  | .bool b => b
  | .num i => !(i == 0)
  | .str s => !(s == "")
  | .obj fs => !fs.isEmpty

mutual
/-- `repr(v)` for the fragment of Python values in `J` (used by `str` on
dictionaries).  String escape sequences inside `repr` are not modelled; no
claim exercises them. -/
def pyRepr : J → String
  | .null => "None"
  | .bool true => "True"
  | .bool false => "False"
  | .num i => toString i
  | .str s => "\x27" ++ s ++ "\x27"
  | .obj fs => "\x7b" ++ pyReprFields fs ++ "\x7d"

/-- Comma-separated `repr` of a dictionary's entries. -/
def pyReprFields : List (String × J) → String
  | [] => ""
  | [(k, v)] => "\x27" ++ k ++ "\x27: " ++ pyRepr v
  | (k, v) :: rest => "\x27" ++ k ++ "\x27: " ++ pyRepr v ++ ", " ++ pyReprFields rest
end

/-- `str(v)` for a Python value: like `repr` except on strings. -/
def pyStr : J → String
  | .str s => s
  | v => pyRepr v

/-- `str` applied to the result of `dict.get` (`None` when the key is absent),
as interpolated by an f-string. -/
def pyStrOpt : Option J → String
  | none => "None"
  | some v => pyStr v

/-- ASCII whitespace stripped by Python's `str.strip()`. -/
def pyWhitespace (c : Char) : Bool :=
  c == ' ' || c == '\t' || c == '\n' || c == '\r' || c.toNat == 11 || c.toNat == 12

/-- Python `str.strip()` (restricted to ASCII whitespace). -/
def pyStrip (s : String) : String :=
  String.mk (((s.data.dropWhile pyWhitespace).reverse.dropWhile pyWhitespace).reverse)

/-- Python's `pat in s` substring test, for non-empty `pat`. -/
def containsSub (s pat : String) : Bool :=
  decide (2 ≤ (s.splitOn pat).length)

/-- `v[key]` on a Python value: dictionary lookup raising `KeyError` on a
missing key, `TypeError` on non-subscriptable values.  (The `TypeError`
messages are abbreviated; no claim depends on them.) -/
def pyIndex (v : J) (key : String) : Except PyExc J :=
  match v with
  | .obj fs =>
    match fs.lookup key with
    | some x => .ok x
    | none => .error (.keyError key)
  | .str _ => .error (.typeError "string indices must be integers")
  | _ => .error (.typeError "object is not subscriptable")

/-- `MAX_DIFF_SIZE = 50000` (characters), from `app.py`. -/
def MAX_DIFF_SIZE : Nat := 50000

/-- `MAX_TOKENS = 4000`, passed as the LLM `max_tokens` budget (the LLM call
itself is abstracted by `LLMOutcome`). -/
def MAX_TOKENS : Nat := 4000

/-- The outbound HTTP requests the pipeline can issue, with the arguments and
`Authorization` header each call site builds. -/
inductive Req where
  | getDiff (owner repo n : J) (authHeader : Option String)
  | llmCall (prompt : String)
  | postReview (owner repo n : J) (body : String) (authHeader : String)
  | postErrorComment (owner repo n : J) (body : String) (authHeader : String)
deriving Repr

/-- What the network returned for the GET of the PR diff. -/
inductive FetchOutcome where
  | timeout
  | requestError (msg : String)
  | httpResponse (status : Nat) (body : String)
deriving Repr

/-- A content segment of the LLM response; `text?` is `some` exactly when the
segment is text-bearing (has a `text` attribute or dict key). -/
structure ContentBlock where
  text? : Option String
deriving Repr

/-- What the LLM client call produced: a response, or one of the exception
classes `analyze_code_with_claude` handles. -/
inductive LLMOutcome where
  | success (content : List ContentBlock)
  | rateLimitError
  | apiTimeoutError
  | apiError (msg : String)
  | otherError (msg : String)
deriving Repr

/-- What the network returned for a POST to GitHub (review or error comment). -/
inductive PostOutcome where
  | timeout
  | requestError (msg : String)
  | httpResponse (status : Nat)
deriving Repr

/-- The Flask response: status code and the `jsonify` body (association list). -/
structure HttpResp where
  status : Nat
  body : List (String × String)
deriving DecidableEq, Repr

/-- The text-bearing segments of the LLM response, in order. -/
def textParts (content : List ContentBlock) : List String :=
  content.filterMap ContentBlock.text?

/-- The fixed review prompt built by `analyze_code_with_claude`. -/
def buildPrompt (diff : String) : String :=
  "You are a senior software engineer doing a code review. Analyze this pull request diff and provide:\n\n1. Security Issues: potential vulnerabilities (SQL injection, XSS, auth issues, etc.)\n2. Architectural Concerns: design problems, tight coupling, poor separation of concerns.\n3. Performance Issues: inefficient algorithms, unnecessary loops, obvious scalability problems.\n4. Code Quality: naming, readability, maintainability issues.\n\nBe specific and reference actual code when possible. Focus on meaningful issues, not nitpicks.\n\nHere is the diff:\n\n"
    ++ diff
    ++ "\n\nFormat your response as a clear, actionable code review in Markdown.\n"

/-- The message of the oversize `ValueError` raised by `get_pr_diff`. -/
def oversizeMsg (len : Nat) : String :=
  "Pull request diff is too large (" ++ toString len
    ++ " characters). Maximum supported size is " ++ toString MAX_DIFF_SIZE
    ++ " characters. Please break this PR into smaller changes."

/-- The body posted by `post_review_to_github`: the fixed header prefix
prepended to the review text. -/
def reviewPostBody (review_text : String) : String :=
  "## 🤖 AI Code Review\n\n" ++ review_text

/-- The body of the best-effort error comment posted by `post_error_to_github`. -/
def errorCommentBody (error_message : String) : String :=
  "## ⚠️ AI Code Review Failed\n\n" ++ error_message
    ++ "\n\nPlease check the webhook logs or contact the maintainer."

/-- `get_pr_diff(owner, repo_name, pr_number)` from `app.py`.  `gtok` is the
`GITHUB_TOKEN` configuration; `fo` is what the network returned.  Returns the
issued requests together with the Python result (diff text or exception).
Branch order follows the source: `raise_for_status` first, then the size
check, then the emptiness check. -/
def get_pr_diff (gtok : Option String) (owner repo_name n : J) (fo : FetchOutcome) :
    List Req × Except PyExc String :=
  let auth : Option String :=
    if pyTruthyOptStr gtok then some ("token " ++ gtok.getD "") else none
  let reqs := [Req.getDiff owner repo_name n auth]
  match fo with
  | .timeout => (reqs, .error (.exception "GitHub API request timed out. Please try again."))
  | .requestError m => (reqs, .error (.exception ("Network error while fetching PR: " ++ m)))
  | .httpResponse s body =>
    if 400 ≤ s ∧ s < 600 then
      (reqs, .error (.exception
        (if s == 401 then "GitHub authentication failed. Check your GITHUB_TOKEN."
         else if s == 403 then "GitHub API rate limit exceeded or insufficient permissions."
         else if s == 404 then
           "Pull request not found: " ++ pyStr owner ++ "/" ++ pyStr repo_name ++ "#" ++ pyStr n
         else "GitHub API error: " ++ toString s ++ " - " ++ body)))
    else if body.length > MAX_DIFF_SIZE then
      (reqs, .error (.valueError (oversizeMsg body.length)))
    else if pyStrip body == "" then
      (reqs, .error (.valueError "Pull request has no code changes to review"))
    else
      (reqs, .ok body)

/-- `analyze_code_with_claude(diff)` from `app.py`.  Note that the
`Exception("Claude returned an empty review")` raised inside the `try` block
is caught by the function's own trailing `except Exception` handler and
re-raised wrapped, so the propagated message is the
"Unexpected error calling Claude API: ..." one. -/
def analyze_code_with_claude (akey : Option String) (lo : LLMOutcome) (diff : String) :
    List Req × Except PyExc String :=
  if pyTruthyOptStr akey = false then
    ([], .error (.runtimeError "ANTHROPIC_API_KEY is not set in .env file"))
  else
    let reqs := [Req.llmCall (buildPrompt diff)]
    match lo with
    | .success content =>
      let review := pyStrip (String.intercalate "\n" (textParts content))
      if review == "" then
        (reqs, .error (.exception "Unexpected error calling Claude API: Claude returned an empty review"))
      else
        (reqs, .ok review)
    | .rateLimitError =>
      (reqs, .error (.exception "Claude API rate limit exceeded. Please wait a moment and try again."))
    | .apiTimeoutError =>
      (reqs, .error (.exception "Claude API request timed out. Please try again."))
    | .apiError m =>
      (reqs, .error (.exception
        (if containsSub m.toLower "credit" || containsSub m.toLower "balance" then
          "Insufficient Anthropic API credits. Please add credits at console.anthropic.com"
         else if containsSub m.toLower "invalid" && containsSub m.toLower "api" then
          "Invalid Anthropic API key. Check your ANTHROPIC_API_KEY in .env"
         else "Claude API error: " ++ m)))
    | .otherError m =>
      (reqs, .error (.exception ("Unexpected error calling Claude API: " ++ m)))

/-- `post_review_to_github(owner, repo, pr_number, review_text)` from `app.py`. -/
def post_review_to_github (gtok : Option String) (po : PostOutcome) (owner repo n : J)
    (review_text : String) : List Req × Except PyExc Unit :=
  if pyTruthyOptStr gtok = false then
    ([], .error (.runtimeError "Cannot post review: GITHUB_TOKEN is not set"))
  else
    let reqs :=
      [Req.postReview owner repo n (reviewPostBody review_text) ("token " ++ gtok.getD "")]
    match po with
    | .timeout => (reqs, .error (.exception "Timeout while posting review to GitHub"))
    | .requestError m => (reqs, .error (.exception ("Network error posting review: " ++ m)))
    | .httpResponse s =>
      if 400 ≤ s ∧ s < 600 then
        (reqs, .error (.exception
          (if s == 401 then "GitHub authentication failed when posting review"
           else if s == 403 then "Insufficient permissions to post review. Check token scopes."
           else if s == 404 then
             "Cannot post review: PR " ++ pyStr owner ++ "/" ++ pyStr repo ++ "#" ++ pyStr n
               ++ " not found"
           else if s == 422 then "Invalid review data. The PR may be closed or locked."
           else "GitHub API error when posting review: " ++ toString s)))
      else
        (reqs, .ok ())

/-- `post_error_to_github(owner, repo, pr_number, error_message)` from
`app.py`: silently returns when no token is configured, otherwise posts the
issue comment inside a `try`/`except Exception` that logs and swallows every
failure.  The boolean result records whether the comment was posted
successfully (the Python function prints either way and returns `None`). -/
def post_error_to_github (gtok : Option String) (ep : PostOutcome) (owner repo n : J)
    (error_message : String) : List Req × Except PyExc Bool :=
  if pyTruthyOptStr gtok = false then
    ([], .ok false)
  else
    ([Req.postErrorComment owner repo n (errorCommentBody error_message)
        ("token " ++ gtok.getD "")],
     .ok (match ep with
          | .httpResponse s => if 400 ≤ s ∧ s < 600 then false else true
          | _ => false))

/-- `action in ['opened', 'synchronize']` applied to `event.get('action')`. -/
def actionProcessed (a : Option J) : Bool :=
  match a with
  | some (.str s) => s == "opened" || s == "synchronize"
  | _ => false

/-- The field extraction of `handle_pr` lines 44-47, in source order:
`pr['number']`, `repo['full_name']`, `repo['owner']['login']`, `repo['name']`.
Any failure here is a `KeyError`/`TypeError` (never a `ValueError`), so in
`handle_pr` it reaches the catch-all `except Exception` handler. -/
def extract4 (pr repo : J) : Except PyExc (J × J × J × J) := do
  let n ← pyIndex pr "number"
  let full ← pyIndex repo "full_name"
  let ownerObj ← pyIndex repo "owner"
  let owner ← pyIndex ownerObj "login"
  let name ← pyIndex repo "name"
  pure (n, full, owner, name)

/-- The `except ValueError` / `except Exception` handlers of `handle_pr`:
a `ValueError` triggers the best-effort error comment (the inner
`try`/`except: pass` plus `post_error_to_github`'s own swallowing make it
non-raising) and a 400 response with the message; every other exception
yields the catch-all 500 response and no comment.  `pr` and `repo` are bound
whenever a `ValueError` can occur (it only arises after extraction
succeeded), so the `'pr' in locals()` guard is always satisfied here. -/
def handleExc (gtok : Option String) (ep : PostOutcome) (owner name n : J)
    (e : PyExc) (log : List Req) : HttpResp × List Req :=
  match e with
  | .valueError msg =>
    (⟨400, [("error", msg)]⟩,
     log ++ (post_error_to_github gtok ep owner name n msg).1)
  | _ => (⟨500, [("error", "Error processing PR: " ++ pyExcStr e)]⟩, log)

/-- `handle_pr()` from `app.py`: the full webhook endpoint.  `event?` is the
parsed JSON body (`none` when `request.json` is `None`); `some []` is the
empty object, which is falsy in Python and hence also hits the
"No JSON payload received" branch.  The extraction-failure branch returns the
catch-all 500 directly: extraction can only raise `KeyError`/`TypeError`,
never `ValueError` (see `extract4`). -/
def handle_pr (gtok akey : Option String) (fo : FetchOutcome) (lo : LLMOutcome)
    (po ep : PostOutcome) (event? : Option (List (String × J))) : HttpResp × List Req :=
  match event? with
  | none => (⟨400, [("error", "No JSON payload received")]⟩, [])
  | some ev =>
    if ev.isEmpty then
      (⟨400, [("error", "No JSON payload received")]⟩, [])
    else if actionProcessed (ev.lookup "action") = false then
      (⟨200, [("message", "Ignored action: " ++ pyStrOpt (ev.lookup "action"))]⟩, [])
    else
      let pr := (ev.lookup "pull_request").getD J.null
      let repo := (ev.lookup "repository").getD J.null
      if pyTruthyJ pr && pyTruthyJ repo then
        match extract4 pr repo with
        | .error e =>
          (⟨500, [("error", "Error processing PR: " ++ pyExcStr e)]⟩, [])
        | .ok (n, _full, owner, name) =>
          let fetchR := get_pr_diff gtok owner name n fo
          match fetchR.2 with
          | .error e => handleExc gtok ep owner name n e fetchR.1
          | .ok diff =>
            let llmR := analyze_code_with_claude akey lo diff
            match llmR.2 with
            | .error e => handleExc gtok ep owner name n e (fetchR.1 ++ llmR.1)
            | .ok review =>
              let postR := post_review_to_github gtok po owner name n review
              match postR.2 with
              | .error e => handleExc gtok ep owner name n e (fetchR.1 ++ llmR.1 ++ postR.1)
              | .ok _ =>
                (⟨200, [("message", "Review posted successfully")]⟩,
                 fetchR.1 ++ llmR.1 ++ postR.1)
      else
        (⟨400, [("error", "Missing pull_request or repository data")]⟩, [])

/-- A fully-populated webhook event with all the fields `handle_pr` touches. -/
def mkEvent (action : String) (n : Int) (full owner name : String) : List (String × J) :=
  [("action", .str action),
   ("pull_request", .obj [("number", .num n)]),
   ("repository", .obj
     [("full_name", .str full),
      ("owner", .obj [("login", .str owner)]),
      ("name", .str name)])]

/-- Is this request an LLM call? -/
def isLLMCall : Req → Bool
  | .llmCall _ => true
  | _ => false

/-- Is this request a review-creation POST? -/
def isPostReview : Req → Bool
  | .postReview _ _ _ _ _ => true
  | _ => false

/-- Is this request a best-effort error comment POST? -/
def isErrorPost : Req → Bool
  | .postErrorComment _ _ _ _ _ => true
  | _ => false

/-- The LLM calls among the issued requests. -/
def llmCalls (l : List Req) : List Req := l.filter isLLMCall

/-- The review-creation POSTs among the issued requests. -/
def postReviews (l : List Req) : List Req := l.filter isPostReview

/-- The error-comment POSTs among the issued requests. -/
def errorPosts (l : List Req) : List Req := l.filter isErrorPost

/-- The event literally given in claim C7 and the spec's end-to-end scenario:
note it has no `repository.full_name` field. -/
def c7Event : List (String × J) :=
  [("action", .str "opened"),
   ("pull_request", .obj [("number", .num 5)]),
   ("repository", .obj [("name", .str "r"), ("owner", .obj [("login", .str "o")])])]

/-- `get_pr_diff` always issues exactly one GET request, with the
`Authorization` header present iff a token is configured. -/
theorem get_pr_diff_fst (gt : Option String) (o r n : J) (fo : FetchOutcome) :
    (get_pr_diff gt o r n fo).1 =
      [Req.getDiff o r n (if pyTruthyOptStr gt then some ("token " ++ gt.getD "") else none)] := by
  cases fo with
  | timeout => rfl
  | requestError m => rfl
  | httpResponse s b =>
    simp only [get_pr_diff]
    split_ifs <;> rfl

/-- `analyze_code_with_claude` issues the LLM call unless the API key is
missing (the key check precedes the client call). -/
theorem analyze_fst (ak : Option String) (lo : LLMOutcome) (d : String) :
    (analyze_code_with_claude ak lo d).1 =
      if pyTruthyOptStr ak = false then [] else [Req.llmCall (buildPrompt d)] := by
  cases lo <;> simp only [analyze_code_with_claude] <;> split_ifs <;> rfl

/-- `post_review_to_github` posts the header-prefixed body unless the token
is missing (the token check precedes the request). -/
theorem post_review_fst (g : Option String) (po : PostOutcome) (o r n : J) (t : String) :
    (post_review_to_github g po o r n t).1 =
      if pyTruthyOptStr g = false then []
      else [Req.postReview o r n (reviewPostBody t) ("token " ++ g.getD "")] := by
  cases po <;> simp only [post_review_to_github] <;> split_ifs <;> rfl

/-- `post_error_to_github` posts the error-notice body exactly when a token
is configured, independently of the network outcome `ep`. -/
theorem post_error_fst (g : Option String) (ep : PostOutcome) (o r n : J) (m : String) :
    (post_error_to_github g ep o r n m).1 =
      if pyTruthyOptStr g = false then []
      else [Req.postErrorComment o r n (errorCommentBody m) ("token " ++ g.getD "")] := by
  cases ep <;> simp only [post_error_to_github] <;> split_ifs <;> rfl

/-- Claim C8 (confirmed): for every inbound event carrying an `action` value
that is not "opened" or "synchronize", the handler returns 200 with the
"Ignored action: ..." message, treats this as a non-error, and issues no
pipeline request at all (no diff fetch, no LLM call, no publish, no comment:
the request log is empty).  Note an event that has an `action` key is a
non-empty dict, hence truthy, so the "No JSON payload" branch cannot fire. -/
theorem claim_C8_ignored_action (gt ak : Option String) (fo : FetchOutcome) (lo : LLMOutcome)
    (po ep : PostOutcome) (ev : List (String × J)) (a : J)
    (ha : ev.lookup "action" = some a)
    (hna : actionProcessed (some a) = false) :
    handle_pr gt ak fo lo po ep (some ev) =
      (⟨200, [("message", "Ignored action: " ++ pyStr a)]⟩, []) := by
  have hne : ev.isEmpty = false := by
    cases ev with
    | nil => simp [List.lookup] at ha
    | cons h t => rfl
  simp [handle_pr, hne, ha, hna, pyStrOpt]

/-- Witness for C8 at the concrete event with action "closed". -/
theorem claim_C8_witness :
    handle_pr none none .timeout .rateLimitError .timeout .timeout
        (some [("action", J.str "closed")]) =
      (⟨200, [("message", "Ignored action: closed")]⟩, []) := by
  have h := claim_C8_ignored_action none none .timeout .rateLimitError .timeout .timeout
      [("action", J.str "closed")] (J.str "closed") (by rfl) (by rfl)
  simpa [pyStr] using h

/-- Claim C10 (confirmed): when the event passes the top-level
`pull_request`/`repository` truthiness validation but a required nested field
(`pull_request.number`, `repository.full_name`, `repository.owner.login` or
`repository.name`) is missing, the extraction raises `KeyError`, which reaches
the catch-all handler: the response is 500 with the
"Error processing PR: <quoted key>" body — not a 400 validation response —
and no pipeline request is issued. -/
theorem claim_C10_missing_nested_field (gt ak : Option String) (fo : FetchOutcome)
    (lo : LLMOutcome) (po ep : PostOutcome) (ev : List (String × J)) (pr repo : J) (key : String)
    (hac : actionProcessed (ev.lookup "action") = true)
    (hpr : ev.lookup "pull_request" = some pr)
    (hrp : ev.lookup "repository" = some repo)
    (htp : pyTruthyJ pr = true) (htr : pyTruthyJ repo = true)
    (hex : extract4 pr repo = .error (.keyError key)) :
    handle_pr gt ak fo lo po ep (some ev) =
      (⟨500, [("error", "Error processing PR: \x27" ++ key ++ "\x27")]⟩, []) := by
  have hne : ev.isEmpty = false := by
    cases ev with
    | nil => simp [List.lookup, actionProcessed] at hac
    | cons h t => rfl
  simp [handle_pr, hne, hac, hpr, hrp, htp, htr, hex, pyExcStr, String.append_assoc]
  rw [← String.append_assoc]
  rfl

/-- Witness for C10: a fully-validated event whose `pull_request` object
lacks `number` yields 500 with the quoted KeyError body. -/
theorem claim_C10_witness :
    handle_pr none none .timeout .rateLimitError .timeout .timeout
        (some [("action", J.str "opened"),
               ("pull_request", J.obj [("id", J.num 1)]),
               ("repository", J.obj
                 [("full_name", J.str "o/r"),
                  ("owner", J.obj [("login", J.str "o")]),
                  ("name", J.str "r")])]) =
      (⟨500, [("error", "Error processing PR: \x27number\x27")]⟩, []) := by
  have h := claim_C10_missing_nested_field none none .timeout .rateLimitError .timeout .timeout
      [("action", J.str "opened"),
       ("pull_request", J.obj [("id", J.num 1)]),
       ("repository", J.obj
         [("full_name", J.str "o/r"),
          ("owner", J.obj [("login", J.str "o")]),
          ("name", J.str "r")])]
      (J.obj [("id", J.num 1)])
      (J.obj [("full_name", J.str "o/r"), ("owner", J.obj [("login", J.str "o")]),
              ("name", J.str "r")])
      "number" (by rfl) (by rfl) (by rfl) (by rfl) (by rfl) (by rfl)
  exact h

/-- Claim C6 (confirmed): whenever the Review Generator returns, its output
is exactly the text-bearing segments of the LLM response joined in order
(with a newline separator, as `"\n".join` does) and stripped of surrounding
whitespace. -/
theorem claim_C6_review_join_trim (k d : String) (content : List ContentBlock)
    (hk : k ≠ "")
    (hne : pyStrip (String.intercalate "\n" (textParts content)) ≠ "") :
    (analyze_code_with_claude (some k) (.success content) d).2 =
      .ok (pyStrip (String.intercalate "\n" (textParts content))) := by
  have hkb : pyTruthyOptStr (some k) = true := by simp [pyTruthyOptStr, hk]
  simp [analyze_code_with_claude, hkb, hne]

/-- Witness for C6 at the spec example: segments [A, B] give "A\nB". -/
theorem claim_C6_witness :
    (analyze_code_with_claude (some "k")
        (.success [⟨some "A"⟩, ⟨some "B"⟩]) "d").2 = .ok "A\nB" := by
  rw [claim_C6_review_join_trim "k" "d" [⟨some "A"⟩, ⟨some "B"⟩] (by decide) (by decide)]
  rfl

/-- Claim C5 (corrected, amended claim): for every LLM response whose
concatenated, trimmed text is empty, the Review Generator fails — but the
`Exception("Claude returned an empty review")` it raises is caught by the
function's own trailing `except Exception` handler and re-raised wrapped, so
the exception that propagates carries the message
"Unexpected error calling Claude API: Claude returned an empty review",
not the bare empty-result message the spec taxonomy calls `EmptyResultError`. -/
theorem claim_C5_amended_empty_wrapped (k d : String) (content : List ContentBlock)
    (hk : k ≠ "")
    (hempty : pyStrip (String.intercalate "\n" (textParts content)) = "") :
    (analyze_code_with_claude (some k) (.success content) d).2 =
      .error (.exception "Unexpected error calling Claude API: Claude returned an empty review") := by
  have hkb : pyTruthyOptStr (some k) = true := by simp [pyTruthyOptStr, hk]
  simp [analyze_code_with_claude, hkb, hempty]

/-- Witness for the amended C5 at a response with one non-text-bearing
segment. -/
theorem claim_C5_witness :
    (analyze_code_with_claude (some "k") (.success [⟨none⟩]) "d").2 =
      .error (.exception "Unexpected error calling Claude API: Claude returned an empty review") :=
  claim_C5_amended_empty_wrapped "k" "d" [⟨none⟩] (by decide) (by rfl)

/-- Counterexample to C5 as stated: at a response with no text-bearing
segments, the generator raises the wrapped "Unexpected error calling Claude
API: ..." exception, which differs from the empty-result exception
("Claude returned an empty review") that the claim (via the spec taxonomy,
which names that raise site `EmptyResultError`) says is raised. -/
theorem claim_C5_counterexample :
    (analyze_code_with_claude (some "k") (.success []) "d").2 =
      .error (.exception "Unexpected error calling Claude API: Claude returned an empty review") ∧
    PyExc.exception "Unexpected error calling Claude API: Claude returned an empty review" ≠
      PyExc.exception "Claude returned an empty review" :=
  ⟨rfl, by decide⟩

/-- Claim C3 (corrected, amended claim): for GitHub calls returning a status
in [400, 600) — the exact range `raise_for_status` raises for — the Diff
Fetcher and the Result Publisher raise the error kind determined by the
status: 401 the authentication error (`UpstreamAuthError`), 403 the
permission/rate-limit error (`UpstreamPermissionError`), 404 the not-found
error (`UpstreamNotFoundError`); the Publisher additionally raises a distinct
unprocessable-entity error on 422; every other status in [400, 600) raises
the generic error (`UpstreamGenericError`).  Statuses outside [400, 600) do
not raise: the fetch proceeds to its local validation checks and the publish
succeeds. -/
theorem claim_C3_amended_status_taxonomy (g : String) (hg : g ≠ "")
    (owner repo n : J) (b rv : String) (s : Nat) :
    ((get_pr_diff (some g) owner repo n (.httpResponse 401 b)).2 =
      .error (.exception "GitHub authentication failed. Check your GITHUB_TOKEN.")) ∧
    ((get_pr_diff (some g) owner repo n (.httpResponse 403 b)).2 =
      .error (.exception "GitHub API rate limit exceeded or insufficient permissions.")) ∧
    ((get_pr_diff (some g) owner repo n (.httpResponse 404 b)).2 =
      .error (.exception ("Pull request not found: " ++ pyStr owner ++ "/" ++ pyStr repo
        ++ "#" ++ pyStr n))) ∧
    (400 ≤ s → s < 600 → s ≠ 401 → s ≠ 403 → s ≠ 404 →
      (get_pr_diff (some g) owner repo n (.httpResponse s b)).2 =
        .error (.exception ("GitHub API error: " ++ toString s ++ " - " ++ b))) ∧
    ((post_review_to_github (some g) (.httpResponse 401) owner repo n rv).2 =
      .error (.exception "GitHub authentication failed when posting review")) ∧
    ((post_review_to_github (some g) (.httpResponse 403) owner repo n rv).2 =
      .error (.exception "Insufficient permissions to post review. Check token scopes.")) ∧
    ((post_review_to_github (some g) (.httpResponse 404) owner repo n rv).2 =
      .error (.exception ("Cannot post review: PR " ++ pyStr owner ++ "/" ++ pyStr repo
        ++ "#" ++ pyStr n ++ " not found"))) ∧
    ((post_review_to_github (some g) (.httpResponse 422) owner repo n rv).2 =
      .error (.exception "Invalid review data. The PR may be closed or locked.")) ∧
    (400 ≤ s → s < 600 → s ≠ 401 → s ≠ 403 → s ≠ 404 → s ≠ 422 →
      (post_review_to_github (some g) (.httpResponse s) owner repo n rv).2 =
        .error (.exception ("GitHub API error when posting review: " ++ toString s))) ∧
    (¬(400 ≤ s ∧ s < 600) → b.length ≤ MAX_DIFF_SIZE → pyStrip b ≠ "" →
      (get_pr_diff (some g) owner repo n (.httpResponse s b)).2 = .ok b) ∧
    (¬(400 ≤ s ∧ s < 600) →
      (post_review_to_github (some g) (.httpResponse s) owner repo n rv).2 = .ok ()) := by
  have hgb : pyTruthyOptStr (some g) = true := by simp [pyTruthyOptStr, hg]
  refine ⟨?_, ?_, ?_, ?_, ?_, ?_, ?_, ?_, ?_, ?_, ?_⟩
  · simp [get_pr_diff]
  · simp [get_pr_diff]
  · simp [get_pr_diff]
  · intro h1 h2 h3 h4 h5
    simp [get_pr_diff, h1, h2, h3, h4, h5, Nat.le_of_lt]
  · simp [post_review_to_github, hgb]
  · simp [post_review_to_github, hgb]
  · simp [post_review_to_github, hgb]
  · simp [post_review_to_github, hgb]
  · intro h1 h2 h3 h4 h5 h6
    simp [post_review_to_github, hgb, h1, h2, h3, h4, h5, h6]
  · intro h1 h2 h3
    simp [get_pr_diff, h1, h2, h3, Nat.not_lt.mpr h2]
  · intro h1
    simp [post_review_to_github, hgb, h1]

/-- Witness for the amended C3: a 500 from the diff fetch raises the
generic "GitHub API error: ..." exception. -/
theorem claim_C3_witness :
    (get_pr_diff (some "t") (.str "o") (.str "r") (.num 5) (.httpResponse 500 "b")).2 =
      .error (.exception ("GitHub API error: " ++ toString 500 ++ " - " ++ "b")) :=
  (claim_C3_amended_status_taxonomy "t" (by decide) (.str "o") (.str "r") (.num 5)
    "b" "rv" 500).2.2.2.1 (by decide) (by decide) (by decide) (by decide) (by decide)

/-- Counterexample to C3 as stated ("any other non-2xx raises
`UpstreamGenericError`"): the Publisher at 422 raises the distinct
unprocessable-entity message, not the generic
"GitHub API error when posting review: 422"; and a non-2xx status outside
[400, 600) (here 304) raises nothing at all — the fetch returns the body. -/
theorem claim_C3_counterexample :
    (post_review_to_github (some "t") (.httpResponse 422) (.str "o") (.str "r") (.num 5) "v").2 =
      .error (.exception "Invalid review data. The PR may be closed or locked.") ∧
    PyExc.exception "Invalid review data. The PR may be closed or locked." ≠
      PyExc.exception "GitHub API error when posting review: 422" ∧
    (get_pr_diff (some "t") (.str "o") (.str "r") (.num 1) (.httpResponse 304 "d")).2 =
      .ok "d" :=
  ⟨rfl, by decide, rfl⟩

/-- Claim C9 (corrected, amended claim): in static-token mode, only the
review publish fails (with `RuntimeError`, the spec taxonomy calls it
`ConfigError`) when `GITHUB_TOKEN` is unset; when it is set the token is used
verbatim in the `token <value>` Authorization header of both the fetch and
the publish.  The diff fetch does **not** fail without a token: it proceeds
unauthenticated (no Authorization header, warning logged) and returns the
diff; the best-effort error comment silently does nothing. -/
theorem claim_C9_amended_token_handling (g : String) (hg : g ≠ "") (po ep : PostOutcome)
    (fo : FetchOutcome) (owner repo n : J) (t m b : String) (s : Nat) :
    ((post_review_to_github none po owner repo n t).2 =
      .error (.runtimeError "Cannot post review: GITHUB_TOKEN is not set")) ∧
    ((post_review_to_github none po owner repo n t).1 = []) ∧
    ((post_review_to_github (some g) po owner repo n t).1 =
      [Req.postReview owner repo n (reviewPostBody t) ("token " ++ g)]) ∧
    ((get_pr_diff none owner repo n fo).1 = [Req.getDiff owner repo n none]) ∧
    (¬(400 ≤ s ∧ s < 600) → b.length ≤ MAX_DIFF_SIZE → pyStrip b ≠ "" →
      (get_pr_diff none owner repo n (.httpResponse s b)).2 = .ok b) ∧
    ((get_pr_diff (some g) owner repo n fo).1 =
      [Req.getDiff owner repo n (some ("token " ++ g))]) ∧
    (post_error_to_github none ep owner repo n m = ([], .ok false)) := by
  have hgb : pyTruthyOptStr (some g) = true := by simp [pyTruthyOptStr, hg]
  refine ⟨?_, ?_, ?_, ?_, ?_, ?_, ?_⟩
  · simp [post_review_to_github, pyTruthyOptStr]
  · simp [post_review_to_github, pyTruthyOptStr]
  · simp [post_review_fst, hgb]
  · simp [get_pr_diff_fst, pyTruthyOptStr]
  · intro h1 h2 h3
    simp [get_pr_diff, h1, h2, h3, Nat.not_lt.mpr h2]
  · simp [get_pr_diff_fst, hgb]
  · simp [post_error_to_github, pyTruthyOptStr]

/-- Witness for the amended C9: publishing with no token raises the
RuntimeError. -/
theorem claim_C9_witness :
    (post_review_to_github none .timeout (.str "o") (.str "r") (.num 5) "rev").2 =
      .error (.runtimeError "Cannot post review: GITHUB_TOKEN is not set") :=
  (claim_C9_amended_token_handling "t" (by decide) .timeout .timeout .timeout
    (.str "o") (.str "r") (.num 5) "rev" "m" "b" 200).1

/-- Counterexample to C9 as stated: with `GITHUB_TOKEN` unset, the diff
fetch does not raise a ConfigError — it issues an unauthenticated request and
returns the diff. -/
theorem claim_C9_counterexample :
    get_pr_diff none (.str "o") (.str "r") (.num 1) (.httpResponse 200 "diff") =
      ([Req.getDiff (.str "o") (.str "r") (.num 1) none], .ok "diff") :=
  rfl

@[simp] theorem llmCalls_nil : llmCalls [] = [] := rfl
@[simp] theorem postReviews_nil : postReviews [] = [] := rfl
@[simp] theorem errorPosts_nil : errorPosts [] = [] := rfl

@[simp] theorem llmCalls_append (a b : List Req) :
    llmCalls (a ++ b) = llmCalls a ++ llmCalls b := List.filter_append a b

@[simp] theorem postReviews_append (a b : List Req) :
    postReviews (a ++ b) = postReviews a ++ postReviews b := List.filter_append a b

@[simp] theorem errorPosts_append (a b : List Req) :
    errorPosts (a ++ b) = errorPosts a ++ errorPosts b := List.filter_append a b

/-- The diff fetch issues no LLM call. -/
theorem llmCalls_get_pr_diff (gt : Option String) (o r n : J) (fo : FetchOutcome) :
    llmCalls (get_pr_diff gt o r n fo).1 = [] := by
  rw [get_pr_diff_fst]; simp [llmCalls, List.filter, isLLMCall]

/-- The diff fetch issues no review POST. -/
theorem postReviews_get_pr_diff (gt : Option String) (o r n : J) (fo : FetchOutcome) :
    postReviews (get_pr_diff gt o r n fo).1 = [] := by
  rw [get_pr_diff_fst]; simp [postReviews, List.filter, isPostReview]

/-- The diff fetch issues no error-comment POST. -/
theorem errorPosts_get_pr_diff (gt : Option String) (o r n : J) (fo : FetchOutcome) :
    errorPosts (get_pr_diff gt o r n fo).1 = [] := by
  rw [get_pr_diff_fst]; simp [errorPosts, List.filter, isErrorPost]

/-- The best-effort error comment issues no LLM call. -/
theorem llmCalls_post_error (g : Option String) (ep : PostOutcome) (o r n : J) (m : String) :
    llmCalls (post_error_to_github g ep o r n m).1 = [] := by
  rw [post_error_fst]; split <;> simp [llmCalls, List.filter, isLLMCall]

/-- The best-effort error comment issues no review POST. -/
theorem postReviews_post_error (g : Option String) (ep : PostOutcome) (o r n : J) (m : String) :
    postReviews (post_error_to_github g ep o r n m).1 = [] := by
  rw [post_error_fst]; split <;> simp [postReviews, List.filter, isPostReview]

/-- The Review Generator issues no error-comment POST. -/
theorem errorPosts_analyze (ak : Option String) (lo : LLMOutcome) (d : String) :
    errorPosts (analyze_code_with_claude ak lo d).1 = [] := by
  rw [analyze_fst]; split <;> simp [errorPosts, List.filter, isErrorPost]

/-- The Result Publisher issues no error-comment POST. -/
theorem errorPosts_post_review (g : Option String) (po : PostOutcome) (o r n : J) (t : String) :
    errorPosts (post_review_to_github g po o r n t).1 = [] := by
  rw [post_review_fst]; split <;> simp [errorPosts, List.filter, isErrorPost]

/-- Whenever the diff fetch fails (for any extracted coordinates), the
whole endpoint issues no LLM call and no review POST. -/
theorem no_stage_calls_of_fetch_error (gt ak : Option String) (fo : FetchOutcome)
    (lo : LLMOutcome) (po ep : PostOutcome) (ev : Option (List (String × J)))
    (hf : ∀ o r n : J, ∃ e, (get_pr_diff gt o r n fo).2 = .error e) :
    llmCalls (handle_pr gt ak fo lo po ep ev).2 = [] ∧
    postReviews (handle_pr gt ak fo lo po ep ev).2 = [] := by
  cases ev with
  | none => simp [handle_pr]
  | some l =>
    by_cases he : l.isEmpty = true
    · simp [handle_pr, he]
    · by_cases hac : actionProcessed (l.lookup "action") = false
      · simp [handle_pr, he, hac]
      · by_cases ht : (pyTruthyJ ((l.lookup "pull_request").getD J.null) &&
            pyTruthyJ ((l.lookup "repository").getD J.null)) = true
        · cases hx : extract4 ((l.lookup "pull_request").getD J.null)
              ((l.lookup "repository").getD J.null) with
          | error e => simp [handle_pr, he, hac, ht, hx]
          | ok tup =>
            obtain ⟨n, full, owner, name⟩ := tup
            obtain ⟨e, hfe⟩ := hf owner name n
            cases e <;>
              simp [handle_pr, he, hac, ht, hx, hfe, handleExc,
                llmCalls_get_pr_diff, postReviews_get_pr_diff,
                llmCalls_post_error, postReviews_post_error]
        · simp [handle_pr, he, hac, ht]

/-- Claim C4 (confirmed): for every fetched diff that is oversized
(length > `MAX_DIFF_SIZE` = 50000) or empty/whitespace-only, `get_pr_diff`
raises `ValueError` (the spec taxonomy's `ValidationError`, not an upstream
exception) with the corresponding message, and — for any webhook event —
neither the Review Generator nor the Publisher is ever invoked on such a
request (the request log contains no LLM call and no review POST). -/
theorem claim_C4_diff_validation (gt ak : Option String) (lo : LLMOutcome) (po ep : PostOutcome)
    (owner repo n : J) (s : Nat) (b : String) (ev : Option (List (String × J)))
    (hs : ¬(400 ≤ s ∧ s < 600)) :
    (b.length > MAX_DIFF_SIZE →
      (get_pr_diff gt owner repo n (.httpResponse s b)).2 =
        .error (.valueError (oversizeMsg b.length))) ∧
    (b.length ≤ MAX_DIFF_SIZE → pyStrip b = "" →
      (get_pr_diff gt owner repo n (.httpResponse s b)).2 =
        .error (.valueError "Pull request has no code changes to review")) ∧
    (b.length > MAX_DIFF_SIZE ∨ pyStrip b = "" →
      llmCalls (handle_pr gt ak (.httpResponse s b) lo po ep ev).2 = [] ∧
      postReviews (handle_pr gt ak (.httpResponse s b) lo po ep ev).2 = []) := by
  refine ⟨?_, ?_, ?_⟩
  · intro hbig
    simp [get_pr_diff, hs, hbig]
  · intro hle hws
    simp [get_pr_diff, hs, hws, Nat.not_lt.mpr hle]
  · intro hd
    apply no_stage_calls_of_fetch_error
    intro o r nn
    rcases hd with hbig | hws
    · exact ⟨.valueError (oversizeMsg b.length), by simp [get_pr_diff, hs, hbig]⟩
    · by_cases hbig : b.length > MAX_DIFF_SIZE
      · exact ⟨.valueError (oversizeMsg b.length), by simp [get_pr_diff, hs, hbig]⟩
      · exact ⟨.valueError "Pull request has no code changes to review",
          by simp [get_pr_diff, hs, hbig, hws]⟩

/-- Witness for C4 at a whitespace-only diff. -/
theorem claim_C4_witness :
    (get_pr_diff (some "t") (.str "o") (.str "r") (.num 5) (.httpResponse 200 " ")).2 =
      .error (.valueError "Pull request has no code changes to review") ∧
    llmCalls (handle_pr (some "t") (some "k") (.httpResponse 200 " ")
      (.success [⟨some "R"⟩]) (.httpResponse 200) (.httpResponse 200)
      (some (mkEvent "opened" 5 "o/r" "o" "r"))).2 = [] ∧
    postReviews (handle_pr (some "t") (some "k") (.httpResponse 200 " ")
      (.success [⟨some "R"⟩]) (.httpResponse 200) (.httpResponse 200)
      (some (mkEvent "opened" 5 "o/r" "o" "r"))).2 = [] := by
  have h := claim_C4_diff_validation (some "t") (some "k") (.success [⟨some "R"⟩])
    (.httpResponse 200) (.httpResponse 200) (.str "o") (.str "r") (.num 5) 200 " "
    (some (mkEvent "opened" 5 "o/r" "o" "r")) (by decide)
  exact ⟨h.2.1 (by decide) (by rfl), (h.2.2 (Or.inr rfl)).1, (h.2.2 (Or.inr rfl)).2⟩

/-- The failure handler's result does not depend on the network outcome of
the best-effort error comment. -/
theorem handleExc_ep_irrel (g : Option String) (ep ep' : PostOutcome) (o nm n : J)
    (e : PyExc) (log : List Req) :
    handleExc g ep o nm n e log = handleExc g ep' o nm n e log := by
  cases e <;> simp [handleExc, post_error_fst]

/-- Claim C2 (confirmed): `post_error_to_github` never raises — its result
is an `ok` value for every token configuration and every network outcome —
and the entire webhook response (status, JSON body, and even the request log)
is identical no matter how the error-comment POST turns out (success,
failure, or skip), so the original pipeline error is never masked. -/
theorem claim_C2_best_effort_isolation (g ak : Option String) (ep ep' po : PostOutcome)
    (fo : FetchOutcome) (lo : LLMOutcome) (o r n : J) (m : String)
    (ev : Option (List (String × J))) :
    (∃ bres, (post_error_to_github g ep o r n m).2 = .ok bres) ∧
    handle_pr g ak fo lo po ep ev = handle_pr g ak fo lo po ep' ev := by
  constructor
  · by_cases hgb : pyTruthyOptStr g = false
    · exact ⟨false, by simp [post_error_to_github, hgb]⟩
    · refine ⟨(match ep with
        | .httpResponse s => if 400 ≤ s ∧ s < 600 then false else true
        | _ => false), ?_⟩
      simp [post_error_to_github, hgb]
  · cases ev with
    | none => rfl
    | some l =>
      by_cases he : l.isEmpty = true
      · simp [handle_pr, he]
      · by_cases hac : actionProcessed (l.lookup "action") = false
        · simp [handle_pr, he, hac]
        · by_cases ht : (pyTruthyJ ((l.lookup "pull_request").getD J.null) &&
              pyTruthyJ ((l.lookup "repository").getD J.null)) = true
          · cases hx : extract4 ((l.lookup "pull_request").getD J.null)
                ((l.lookup "repository").getD J.null) with
            | error e => simp [handle_pr, he, hac, ht, hx]
            | ok tup =>
              obtain ⟨n1, full, owner, name⟩ := tup
              cases hfe : (get_pr_diff g owner name n1 fo).2 with
              | error e =>
                simp [handle_pr, he, hac, ht, hx, hfe, handleExc_ep_irrel g ep ep']
              | ok diff =>
                cases hae : (analyze_code_with_claude ak lo diff).2 with
                | error e =>
                  simp [handle_pr, he, hac, ht, hx, hfe, hae, handleExc_ep_irrel g ep ep']
                | ok review =>
                  cases hpe : (post_review_to_github g po owner name n1 review).2 with
                  | error e =>
                    simp [handle_pr, he, hac, ht, hx, hfe, hae, hpe,
                      handleExc_ep_irrel g ep ep']
                  | ok u => simp [handle_pr, he, hac, ht, hx, hfe, hae, hpe]
          · simp [handle_pr, he, hac, ht]

/-- On a fully-populated "opened" event the dispatcher validates and
extracts successfully, so `handle_pr` is exactly the three-stage pipeline
with the top-level exception handlers. -/
theorem handle_pr_mkEvent_opened (gt ak : Option String) (fo : FetchOutcome) (lo : LLMOutcome)
    (po ep : PostOutcome) (n : Int) (full owner name : String) :
    handle_pr gt ak fo lo po ep (some (mkEvent "opened" n full owner name)) =
      (match (get_pr_diff gt (.str owner) (.str name) (.num n) fo).2 with
       | .error e => handleExc gt ep (.str owner) (.str name) (.num n) e
           (get_pr_diff gt (.str owner) (.str name) (.num n) fo).1
       | .ok diff =>
         match (analyze_code_with_claude ak lo diff).2 with
         | .error e => handleExc gt ep (.str owner) (.str name) (.num n) e
             ((get_pr_diff gt (.str owner) (.str name) (.num n) fo).1 ++
              (analyze_code_with_claude ak lo diff).1)
         | .ok review =>
           match (post_review_to_github gt po (.str owner) (.str name) (.num n) review).2 with
           | .error e => handleExc gt ep (.str owner) (.str name) (.num n) e
               ((get_pr_diff gt (.str owner) (.str name) (.num n) fo).1 ++
                (analyze_code_with_claude ak lo diff).1 ++
                (post_review_to_github gt po (.str owner) (.str name) (.num n) review).1)
           | .ok _ =>
             (⟨200, [("message", "Review posted successfully")]⟩,
              (get_pr_diff gt (.str owner) (.str name) (.num n) fo).1 ++
              (analyze_code_with_claude ak lo diff).1 ++
              (post_review_to_github gt po (.str owner) (.str name) (.num n) review).1)) := by
  rfl

/-- A singleton error-comment request survives the `errorPosts` filter. -/
theorem errorPosts_comment_singleton (o r n : J) (b h : String) :
    errorPosts [Req.postErrorComment o r n b h] = [Req.postErrorComment o r n b h] := rfl

/-- The top-level exception handlers: a `ValueError` yields the 400
response with the message and appends exactly one best-effort error-comment
POST (token configured); any other exception yields the catch-all 500
response and posts nothing. -/
theorem handleExc_cases (g : String) (hgb : pyTruthyOptStr (some g) = true)
    (ep : PostOutcome) (o nm n : J) (e : PyExc) (log : List Req)
    (hlog : errorPosts log = []) :
    ((handleExc (some g) ep o nm n e log).1.status = 500 →
      errorPosts (handleExc (some g) ep o nm n e log).2 = []) ∧
    ((handleExc (some g) ep o nm n e log).1.status = 400 →
      ∃ m, (handleExc (some g) ep o nm n e log).1.body = [("error", m)] ∧
        errorPosts (handleExc (some g) ep o nm n e log).2 =
          [Req.postErrorComment o nm n (errorCommentBody m) ("token " ++ g)]) := by
  cases e with
  | valueError m =>
    constructor
    · intro h
      simp [handleExc] at h
    · intro _
      refine ⟨m, by simp [handleExc], ?_⟩
      rw [show (handleExc (some g) ep o nm n (.valueError m) log).2 =
            log ++ (post_error_to_github (some g) ep o nm n m).1 from rfl,
          errorPosts_append, hlog, post_error_fst]
      simp [hgb, errorPosts_comment_singleton]
  | runtimeError m =>
    exact ⟨fun _ => by
        rw [show (handleExc (some g) ep o nm n (.runtimeError m) log).2 = log from rfl, hlog],
      fun h => by simp [handleExc] at h⟩
  | keyError m =>
    exact ⟨fun _ => by
        rw [show (handleExc (some g) ep o nm n (.keyError m) log).2 = log from rfl, hlog],
      fun h => by simp [handleExc] at h⟩
  | typeError m =>
    exact ⟨fun _ => by
        rw [show (handleExc (some g) ep o nm n (.typeError m) log).2 = log from rfl, hlog],
      fun h => by simp [handleExc] at h⟩
  | exception m =>
    exact ⟨fun _ => by
        rw [show (handleExc (some g) ep o nm n (.exception m) log).2 = log from rfl, hlog],
      fun h => by simp [handleExc] at h⟩

/-- Claim C1 (corrected, amended claim): in static-token mode with the
token configured, on a valid processed event, the best-effort error-notice
comment is posted exactly for the validation (`ValueError`, 400) failures:
every 400 pipeline response comes with exactly one error-comment POST
carrying the error message, and every 500 response (upstream, config or
unexpected failure at any of the three stages) posts no error comment at
all. -/
theorem claim_C1_amended_comment_policy (g : String) (hg : g ≠ "") (ak : Option String)
    (fo : FetchOutcome) (lo : LLMOutcome) (po ep : PostOutcome) (n : Int)
    (full owner name : String) :
    ((handle_pr (some g) ak fo lo po ep (some (mkEvent "opened" n full owner name))).1.status = 500 →
      errorPosts (handle_pr (some g) ak fo lo po ep (some (mkEvent "opened" n full owner name))).2 = []) ∧
    ((handle_pr (some g) ak fo lo po ep (some (mkEvent "opened" n full owner name))).1.status = 400 →
      ∃ m,
        (handle_pr (some g) ak fo lo po ep (some (mkEvent "opened" n full owner name))).1.body =
          [("error", m)] ∧
        errorPosts (handle_pr (some g) ak fo lo po ep (some (mkEvent "opened" n full owner name))).2 =
          [Req.postErrorComment (.str owner) (.str name) (.num n) (errorCommentBody m)
            ("token " ++ g)]) := by
  have hgb : pyTruthyOptStr (some g) = true := by simp [pyTruthyOptStr, hg]
  rw [handle_pr_mkEvent_opened]
  split
  next e heq =>
    exact handleExc_cases g hgb ep _ _ _ e _ (errorPosts_get_pr_diff _ _ _ _ _)
  next diff heq =>
    split
    next e heq2 =>
      exact handleExc_cases g hgb ep _ _ _ e _
        (by simp [errorPosts_get_pr_diff, errorPosts_analyze])
    next review heq2 =>
      split
      next e heq3 =>
        exact handleExc_cases g hgb ep _ _ _ e _
          (by simp [errorPosts_get_pr_diff, errorPosts_analyze, errorPosts_post_review])
      next u heq3 =>
        constructor
        · intro h
          simp at h
        · intro h
          simp at h

/-- Joining a single segment is that segment. -/
theorem intercalate_singleton (sep t : String) : String.intercalate sep [t] = t := by
  simp [String.intercalate, String.intercalate.go]

/-- Claim C7 (corrected, amended claim): for the end-to-end event amended
to include the `repository.full_name` field the code reads (line 45 of
`app.py`), with a 30-character valid diff and one non-empty LLM segment, the
Publisher is called exactly once, with the fixed "AI Code Review" header
prefixed to the review text, and the endpoint returns 200. -/
theorem claim_C7_amended_end_to_end (g k diff t full : String) (ep : PostOutcome)
    (hg : g ≠ "") (hk : k ≠ "") (hlen : diff.length = 30) (hws : pyStrip diff ≠ "")
    (ht : pyStrip t ≠ "") :
    handle_pr (some g) (some k) (.httpResponse 200 diff) (.success [⟨some t⟩])
        (.httpResponse 200) ep (some (mkEvent "opened" 5 full "o" "r")) =
      (⟨200, [("message", "Review posted successfully")]⟩,
       [Req.getDiff (.str "o") (.str "r") (.num 5) (some ("token " ++ g)),
        Req.llmCall (buildPrompt diff),
        Req.postReview (.str "o") (.str "r") (.num 5) (reviewPostBody (pyStrip t))
          ("token " ++ g)]) := by
  have hgb : pyTruthyOptStr (some g) = true := by simp [pyTruthyOptStr, hg]
  have hkb : pyTruthyOptStr (some k) = true := by simp [pyTruthyOptStr, hk]
  have hfetch : get_pr_diff (some g) (.str "o") (.str "r") (.num 5) (.httpResponse 200 diff) =
      ([Req.getDiff (.str "o") (.str "r") (.num 5) (some ("token " ++ g))], .ok diff) := by
    simp [get_pr_diff, hgb, hws, hlen, MAX_DIFF_SIZE]
  have hrev : pyStrip (String.intercalate "\n" (textParts [⟨some t⟩])) = pyStrip t := by
    simp [textParts, intercalate_singleton]
  have hllm : analyze_code_with_claude (some k) (.success [⟨some t⟩]) diff =
      ([Req.llmCall (buildPrompt diff)], .ok (pyStrip t)) := by
    simp [analyze_code_with_claude, hkb, hrev, ht]
  have hpost : post_review_to_github (some g) (.httpResponse 200) (.str "o") (.str "r")
        (.num 5) (pyStrip t) =
      ([Req.postReview (.str "o") (.str "r") (.num 5) (reviewPostBody (pyStrip t))
          ("token " ++ g)], .ok ()) := by
    simp [post_review_to_github, hgb]
  rw [handle_pr_mkEvent_opened]
  simp only [hfetch, hllm, hpost]
  rfl

/-- Counterexample to C1 as stated ("for every pipeline failure ... posts
an error notice"): an upstream diff-fetch failure (HTTP 500) is a pipeline
failure, yet the endpoint returns 500 and the request log contains no
error-comment POST — only the diff GET. -/
theorem claim_C1_counterexample :
    handle_pr (some "t") (some "k") (.httpResponse 500 "x") (.success [⟨some "R"⟩])
        (.httpResponse 200) (.httpResponse 200) (some (mkEvent "opened" 5 "o/r" "o" "r")) =
      (⟨500, [("error", "Error processing PR: GitHub API error: 500 - x")]⟩,
       [Req.getDiff (.str "o") (.str "r") (.num 5) (some "token t")]) := rfl

/-- Witness for the amended C1 at a whitespace-only-diff validation
failure. -/
theorem claim_C1_witness :
    ((handle_pr (some "t") (some "k") (.httpResponse 200 " ") (.success [⟨some "R"⟩])
        (.httpResponse 200) (.httpResponse 200)
        (some (mkEvent "opened" 5 "o/r" "o" "r"))).1.status = 500 →
      errorPosts (handle_pr (some "t") (some "k") (.httpResponse 200 " ")
        (.success [⟨some "R"⟩]) (.httpResponse 200) (.httpResponse 200)
        (some (mkEvent "opened" 5 "o/r" "o" "r"))).2 = []) ∧
    ((handle_pr (some "t") (some "k") (.httpResponse 200 " ") (.success [⟨some "R"⟩])
        (.httpResponse 200) (.httpResponse 200)
        (some (mkEvent "opened" 5 "o/r" "o" "r"))).1.status = 400 →
      ∃ m,
        (handle_pr (some "t") (some "k") (.httpResponse 200 " ") (.success [⟨some "R"⟩])
          (.httpResponse 200) (.httpResponse 200)
          (some (mkEvent "opened" 5 "o/r" "o" "r"))).1.body = [("error", m)] ∧
        errorPosts (handle_pr (some "t") (some "k") (.httpResponse 200 " ")
          (.success [⟨some "R"⟩]) (.httpResponse 200) (.httpResponse 200)
          (some (mkEvent "opened" 5 "o/r" "o" "r"))).2 =
          [Req.postErrorComment (.str "o") (.str "r") (.num 5) (errorCommentBody m)
            ("token " ++ "t")]) :=
  claim_C1_amended_comment_policy "t" (by decide) (some "k") (.httpResponse 200 " ")
    (.success [⟨some "R"⟩]) (.httpResponse 200) (.httpResponse 200) 5 "o/r" "o" "r"

/-- Counterexample to C7 as stated: on the claim's literal event (which
lacks `repository.full_name`), even with a fully successful world (30-char
valid diff, one non-empty LLM segment), `repo["full_name"]` raises `KeyError`
before the pipeline starts: the endpoint returns 500, and the Publisher is
called zero times (the request log is empty), not exactly once with a 200. -/
theorem claim_C7_counterexample :
    handle_pr (some "t") (some "k") (.httpResponse 200 "abcdefghijabcdefghijabcdefghij")
        (.success [⟨some "R"⟩]) (.httpResponse 200) (.httpResponse 200) (some c7Event) =
      (⟨500, [("error", "Error processing PR: \x27full_name\x27")]⟩, []) := rfl

/-- Witness for the amended C7 at the concrete 30-character diff and the
one-segment review "R". -/
theorem claim_C7_witness :
    handle_pr (some "t") (some "k")
        (.httpResponse 200 "abcdefghijabcdefghijabcdefghij") (.success [⟨some "R"⟩])
        (.httpResponse 200) (.httpResponse 200) (some (mkEvent "opened" 5 "o/r" "o" "r")) =
      (⟨200, [("message", "Review posted successfully")]⟩,
       [Req.getDiff (.str "o") (.str "r") (.num 5) (some "token t"),
        Req.llmCall (buildPrompt "abcdefghijabcdefghijabcdefghij"),
        Req.postReview (.str "o") (.str "r") (.num 5) "## 🤖 AI Code Review\n\nR"
          "token t"]) := by
  have h := claim_C7_amended_end_to_end "t" "k" "abcdefghijabcdefghijabcdefghij" "R" "o/r"
      (.httpResponse 200) (by decide) (by decide) (by decide) (by decide) (by decide)
  exact h
